import Mathlib

/-!
Shallow embedding of the PhysioHome booking backend (src/server.js: the Express
handlers together with the embedded database schema, triggers and the stored
procedure that ship in the same source file).  Appointment times are minutes
since midnight; calendar dates are (year, month, day) triples; DECIMAL money
values are rationals.
-/

namespace PhysioHome

/-- Values of the appointments.status ENUM in the schema.  The schema lists a
sixth value no_show; the HTTP status validator accepts only the first five. -/
inductive Status where
  | scheduled
  | confirmed
  | in_progress
  | completed
  | cancelled
  | no_show
deriving DecidableEq, Repr

/-- Values of the users.role ENUM. -/
inductive Role where
  | admin
  | therapist
  | patient
deriving DecidableEq, Repr

/-- A calendar date, as stored in a MySQL DATE column. -/
structure Date where
  year : Nat
  month : Nat
  day : Nat
deriving DecidableEq, Repr

/-- Day count of a civil (proleptic Gregorian) date, for years from 1 on.
Standard era/year-of-era decomposition; used only through mysqlDayOfWeek. -/
def totalDaysFromCivil (dt : Date) : Nat :=
  let yAdj := if dt.month ≤ 2 then dt.year - 1 else dt.year
  let era := yAdj / 400
  let yoe := yAdj % 400
  let mp := if dt.month > 2 then dt.month - 3 else dt.month + 9
  let doy := (153 * mp + 2) / 5 + (dt.day - 1)
  let doe := yoe * 365 + yoe / 4 - yoe / 100 + doy
  era * 146097 + doe

/-- MySQL DAYOFWEEK: 1 = Sunday .. 7 = Saturday, canonical civil calendar.
1970-01-01 was a Thursday; its day count is 719468 and 719468 % 7 = 1. -/
def mysqlDayOfWeek (dt : Date) : Nat :=
  (totalDaysFromCivil dt + 3) % 7 + 1

/-- Row of the users table (the fields the scheduling core reads). -/
structure User where
  id : Nat
  role : Role
  is_active : Bool
deriving DecidableEq, Repr

/-- Row of the therapists profile table (the fields the scheduling core reads).
user_id references users.id; availability rows reference the profile id. -/
structure TherapistProfile where
  id : Nat
  user_id : Nat
  hourly_rate : ℚ
deriving DecidableEq, Repr

/-- Row of the therapist_availability table: a recurring weekly window.
therapist_id references therapists.id (the profile id, not the user id). -/
structure AvailabilityWindow where
  therapist_id : Nat
  day_of_week : Nat
  start_time : Nat
  end_time : Nat
  is_available : Bool
deriving DecidableEq, Repr

/-- Row of the appointments table (the fields the scheduling core touches). -/
structure Appointment where
  id : Nat
  patient_id : Nat
  therapist_id : Nat
  appointment_date : Date
  appointment_time : Nat
  service_type : String
  status : Status
  duration_minutes : Nat
  notes : Option String
  patient_address : String
  total_cost : Option ℚ
deriving DecidableEq, Repr

/-- Row of the notifications table. -/
structure Notification where
  user_id : Nat
  title : String
  message : String
  type : String
  related_id : Option Nat
  related_type : Option String
  is_read : Bool
deriving DecidableEq, Repr

/-- Row of the audit_logs table.  The trigger stores
JSON_OBJECT with the single key status in old_values and new_values; the
embedding keeps the two statuses themselves. -/
structure AuditLog where
  user_id : Nat
  action : String
  table_name : String
  record_id : Nat
  old_status : Status
  new_status : Status
deriving DecidableEq, Repr

/-- The persistent state: the tables the scheduling core reads or writes,
plus the AUTO_INCREMENT counter of the appointments table. -/
structure DB where
  users : List User
  therapists : List TherapistProfile
  availability : List AvailabilityWindow
  appointments : List Appointment
  notifications : List Notification
  audit_logs : List AuditLog
  nextAppointmentId : Nat
deriving DecidableEq, Repr

/-- The error kinds the appointment handlers produce (HTTP bodies):
400 validation failure, 404 not found, 409 conflict, 500 catch-all. -/
inductive ApiError where
  | validationError
  | notFound (msg : String)
  | conflict (msg : String)
  | internalError
deriving DecidableEq, Repr

/-- The authenticated actor decoded from the JWT: req.user.userId and role. -/
structure Actor where
  userId : Nat
  role : Role
deriving DecidableEq, Repr

/-- The status validator of PUT /api/appointments/:id/status:
body status must be one of the five listed values. -/
def parseStatus (s : String) : Option Status :=
  if s = "scheduled" then some Status.scheduled
  else if s = "confirmed" then some Status.confirmed
  else if s = "in_progress" then some Status.in_progress
  else if s = "completed" then some Status.completed
  else if s = "cancelled" then some Status.cancelled
  else none

/-- Whether a status blocks its slot: status NOT IN (cancelled, completed). -/
def Status.blocks : Status → Bool
  | Status.cancelled => false
  | Status.completed => false
  | _ => true

/-- Conflict pre-check of POST /api/appointments: is there an appointment with
the same therapist, date and time whose status is not cancelled or completed? -/
def hasConflict (db : DB) (tid : Nat) (d : Date) (t : Nat) : Bool :=
  db.appointments.any fun a =>
    decide (a.therapist_id = tid ∧ a.appointment_date = d ∧ a.appointment_time = t)
      && a.status.blocks

/-- The UNIQUE KEY unique_appointment (therapist_id, appointment_date,
appointment_time) of the appointments table: an INSERT is rejected when any
stored row, of any status, carries the same tuple. -/
def violatesUniqueAppointment (db : DB) (tid : Nat) (d : Date) (t : Nat) : Bool :=
  db.appointments.any fun a =>
    decide (a.therapist_id = tid ∧ a.appointment_date = d ∧ a.appointment_time = t)

/-- Therapist existence check of POST /api/appointments:
SELECT id FROM users WHERE id = ? AND role = therapist AND is_active = 1. -/
def therapistUserExists (db : DB) (tid : Nat) : Bool :=
  db.users.any fun u =>
    decide (u.id = tid ∧ u.role = Role.therapist ∧ u.is_active = true)

/-- Rate lookup of the cost trigger: hourly_rate from therapists joined with
users on therapists.user_id = users.id, for the given therapist user id. -/
def lookupHourlyRate (db : DB) (tid : Nat) : Option ℚ :=
  (db.therapists.find? fun p => decide (p.user_id = tid)).map TherapistProfile.hourly_rate

/-- Cost rule of the calculate_appointment_cost trigger: an explicitly supplied
total cost is kept; a NULL one becomes hourly_rate * (duration_minutes / 60),
with exact DECIMAL division. -/
def calculate_appointment_cost (suppliedCost : Option ℚ) (rate : Option ℚ)
    (durationMinutes : Nat) : Option ℚ :=
  match suppliedCost with
  | some c => some c
  | none => rate.map fun r => r * ((durationMinutes : ℚ) / 60)

/-- The BEFORE INSERT trigger calculate_appointment_cost applied to an incoming
appointments row. -/
def applyCostTrigger (db : DB) (row : Appointment) : Appointment :=
  { row with total_cost :=
      (calculate_appointment_cost row.total_cost (lookupHourlyRate db row.therapist_id)
        row.duration_minutes) }

/-- Two-digit zero padding, as in the formats of DATE_FORMAT and TIME_FORMAT. -/
def pad2 (n : Nat) : String :=
  if n < 10 then "0" ++ toString n else toString n

/-- DATE_FORMAT(date, percent-d slash percent-m slash percent-Y). -/
def formatDateDMY (d : Date) : String :=
  pad2 d.day ++ "/" ++ pad2 d.month ++ "/" ++ toString d.year

/-- TIME_FORMAT(time, percent-H colon percent-i). -/
def formatTimeHM (t : Nat) : String :=
  pad2 (t / 60) ++ ":" ++ pad2 (t % 60)

/-- The AFTER INSERT trigger create_appointment_notification: one notification
row for the therapist and one for the patient of the inserted appointment. -/
def create_appointment_notification (a : Appointment) : List Notification :=
  [ { user_id := a.therapist_id
    , title := "Appointment Baru"
    , message := "Anda memiliki appointment baru pada "
        ++ formatDateDMY a.appointment_date ++ " jam " ++ formatTimeHM a.appointment_time
    , type := "appointment"
    , related_id := some a.id
    , related_type := some "appointment"
    , is_read := false }
  , { user_id := a.patient_id
    , title := "Appointment Terkonfirmasi"
    , message := "Appointment Anda telah terjadwal pada "
        ++ formatDateDMY a.appointment_date ++ " jam " ++ formatTimeHM a.appointment_time
    , type := "appointment"
    , related_id := some a.id
    , related_type := some "appointment"
    , is_read := false } ]

/-- The AFTER UPDATE trigger log_appointment_changes: one audit row, carrying
NEW.patient_id as user_id, exactly when the status changed. -/
def log_appointment_changes (oldRow newRow : Appointment) : List AuditLog :=
  if oldRow.status ≠ newRow.status then
    [ { user_id := newRow.patient_id
      , action := "status_change"
      , table_name := "appointments"
      , record_id := newRow.id
      , old_status := oldRow.status
      , new_status := newRow.status } ]
  else []

/-- The validated body of POST /api/appointments.  There is no patient id
field: the handler takes patient_id from req.user.userId, and neither
duration_minutes nor total_cost is read from the request (the INSERT leaves
them to the column default 60 and the cost trigger). -/
structure CreateRequest where
  therapist_id : Nat
  appointment_date : Date
  appointment_time : Nat
  service_type : String
  notes : Option String
  address : String
deriving DecidableEq, Repr

/-- The appointments row built by the INSERT of POST /api/appointments, with
the BEFORE INSERT cost trigger applied: status scheduled, duration default 60,
total_cost NULL then filled in by the trigger. -/
def newAppointmentRow (db : DB) (actorUserId : Nat) (req : CreateRequest) : Appointment :=
  applyCostTrigger db
    { id := db.nextAppointmentId
    , patient_id := actorUserId
    , therapist_id := req.therapist_id
    , appointment_date := req.appointment_date
    , appointment_time := req.appointment_time
    , service_type := req.service_type
    , status := Status.scheduled
    , duration_minutes := 60
    , notes := req.notes
    , patient_address := req.address
    , total_cost := none }

/-- POST /api/appointments: therapist check, conflict pre-check, INSERT.  The
INSERT is subject to the unique_appointment key; a duplicate-key rejection
reaches the catch-all handler, which answers 500 Internal server error.  On
success the two AFTER INSERT notification rows are appended and the new id is
returned. -/
def createAppointment (db : DB) (actorUserId : Nat) (req : CreateRequest) :
    Except ApiError (DB × Nat) :=
  if therapistUserExists db req.therapist_id = false then
    Except.error (ApiError.notFound "Therapist not found")
  else if hasConflict db req.therapist_id req.appointment_date req.appointment_time then
    Except.error (ApiError.conflict "Time slot already booked")
  else if violatesUniqueAppointment db req.therapist_id req.appointment_date
      req.appointment_time then
    Except.error ApiError.internalError
  else
    let row := newAppointmentRow db actorUserId req
    Except.ok
      ( { db with
            appointments := db.appointments ++ [row]
          , notifications := db.notifications ++ create_appointment_notification row
          , nextAppointmentId := db.nextAppointmentId + 1 }
      , db.nextAppointmentId )

/-- WHERE id = ? row selector of the status update and its triggers. -/
def idMatches (apptId : Nat) (a : Appointment) : Bool :=
  decide (a.id = apptId)

/-- Permission disjunction of the row lookup in PUT /api/appointments/:id/status:
patient_id = userId OR therapist_id = userId OR role = admin. -/
def canTouch (actor : Actor) (a : Appointment) : Bool :=
  decide (a.patient_id = actor.userId ∨ a.therapist_id = actor.userId
    ∨ actor.role = Role.admin)

/-- The UPDATE of the status route applied to one row: SET status = ?,
notes = COALESCE(?, notes). -/
def applyStatusUpdate (st : Status) (notes : Option String) (a : Appointment) : Appointment :=
  { a with
      status := st
    , notes := match notes with
        | some n => some n
        | none => a.notes }

/-- State after the UPDATE of the status route and its audit trigger: every
row with the id gets the new status and coalesced notes, and the trigger
appends one audit row per updated row whose status changed. -/
def statusUpdateResult (db : DB) (apptId : Nat) (st : Status)
    (notes : Option String) : DB :=
  { db with
      appointments := db.appointments.map fun a =>
        if idMatches apptId a then applyStatusUpdate st notes a else a
    , audit_logs := db.audit_logs ++
        (db.appointments.filter (idMatches apptId)).flatMap fun a =>
          log_appointment_changes a (applyStatusUpdate st notes a) }

/-- PUT /api/appointments/:id/status: the five-value status validator runs
before any storage access; then the row is looked up under the permission
disjunction; then the UPDATE by id runs, and the AFTER UPDATE audit trigger
fires for every updated row whose status changed. -/
def updateAppointmentStatus (db : DB) (actor : Actor) (apptId : Nat)
    (newStatus : String) (notes : Option String) : Except ApiError DB :=
  match parseStatus newStatus with
  | none => Except.error ApiError.validationError
  | some st =>
    match db.appointments.find? fun a => idMatches apptId a && canTouch actor a with
    | none => Except.error (ApiError.notFound "Appointment not found")
    | some _ => Except.ok (statusUpdateResult db apptId st notes)

/-- Times excluded by the subquery of GetAvailableTimeSlots: appointment times
of the therapist on the date with status NOT IN (cancelled, completed). -/
def blockedTimes (db : DB) (therapistUserId : Nat) (d : Date) : List Nat :=
  (db.appointments.filter fun a =>
      decide (a.therapist_id = therapistUserId ∧ a.appointment_date = d)
        && a.status.blocks).map Appointment.appointment_time

/-- The stored procedure GetAvailableTimeSlots: windows of the profile mapped
from the therapist user id, for DAYOFWEEK(date) - 1, active, whose start time
is not among the blocked times, ordered ascending by start time. -/
def getAvailableTimeSlots (db : DB) (therapistUserId : Nat) (d : Date) : List Nat :=
  let dow := mysqlDayOfWeek d - 1
  let profileId :=
    (db.therapists.find? fun p => decide (p.user_id = therapistUserId)).map TherapistProfile.id
  let wins := db.availability.filter fun w =>
    decide (some w.therapist_id = profileId ∧ w.day_of_week = dow ∧ w.is_available = true)
      && !(decide (w.start_time ∈ blockedTimes db therapistUserId d))
  List.insertionSort (· ≤ ·) (wins.map AvailabilityWindow.start_time)

/-- Reachable states: any state with an empty appointments table (the shipped
schema starts empty; user, profile and availability content is owned by the
collaborators), closed under the two mutating scheduling operations and under
collaborator activity that leaves the appointments table untouched. -/
inductive Reachable : DB → Prop where
  | init (db : DB) : db.appointments = [] → Reachable db
  | create (db db' : DB) (actorUserId : Nat) (req : CreateRequest) (id : Nat) :
      Reachable db → createAppointment db actorUserId req = Except.ok (db', id) →
      Reachable db'
  | update (db db' : DB) (actor : Actor) (apptId : Nat) (ns : String)
      (notes : Option String) :
      Reachable db → updateAppointmentStatus db actor apptId ns notes = Except.ok db' →
      Reachable db'
  | collab (db db' : DB) :
      Reachable db → db'.appointments = db.appointments → Reachable db'

/-- The booking key of an appointment: (therapist id, date, time). -/
def apptKey (a : Appointment) : Nat × Date × Nat :=
  (a.therapist_id, a.appointment_date, a.appointment_time)

/-- The claimed invariant: no two appointments whose status blocks a slot
share the same (therapist id, date, time) key. -/
def NoDoubleBooking (db : DB) : Prop :=
  db.appointments.Pairwise fun a b =>
    a.status.blocks = true → b.status.blocks = true → apptKey a ≠ apptKey b

/-- The storage-level invariant enforced by unique_appointment: all rows,
of any status, have pairwise distinct keys. -/
def UniqueKeyInv (db : DB) : Prop :=
  db.appointments.Pairwise fun a b => apptKey a ≠ apptKey b

end PhysioHome

namespace PhysioHome

lemma Status.blocks_iff (s : Status) :
    s.blocks = true ↔ s ≠ Status.cancelled ∧ s ≠ Status.completed := by
  cases s <;> simp [Status.blocks]

lemma createAppointment_ok {db : DB} {actorUserId : Nat} {req : CreateRequest}
    {db' : DB} {id : Nat}
    (h : createAppointment db actorUserId req = Except.ok (db', id)) :
    therapistUserExists db req.therapist_id = true ∧
    hasConflict db req.therapist_id req.appointment_date req.appointment_time = false ∧
    violatesUniqueAppointment db req.therapist_id req.appointment_date
      req.appointment_time = false ∧
    id = db.nextAppointmentId ∧
    db' = { db with
        appointments := db.appointments ++ [newAppointmentRow db actorUserId req]
      , notifications := db.notifications ++
          create_appointment_notification (newAppointmentRow db actorUserId req)
      , nextAppointmentId := db.nextAppointmentId + 1 } := by
  unfold createAppointment at h
  split at h
  · exact absurd h (by simp)
  next hte =>
    split at h
    next hc => exact absurd h (by simp)
    next hc =>
      split at h
      next hv => exact absurd h (by simp)
      next hv =>
        simp only [Except.ok.injEq, Prod.mk.injEq] at h
        refine ⟨by simpa using hte, by simpa using hc, by simpa using hv,
          h.2.symm, h.1.symm⟩

lemma updateAppointmentStatus_ok {db : DB} {actor : Actor} {apptId : Nat}
    {ns : String} {notes : Option String} {db' : DB}
    (h : updateAppointmentStatus db actor apptId ns notes = Except.ok db') :
    ∃ st a, parseStatus ns = some st ∧
      db.appointments.find? (fun x => idMatches apptId x && canTouch actor x) = some a ∧
      db' = statusUpdateResult db apptId st notes := by
  unfold updateAppointmentStatus at h
  split at h
  · exact absurd h (by simp)
  next st hps =>
    split at h
    · exact absurd h (by simp)
    next a hfind =>
      simp only [Except.ok.injEq] at h
      exact ⟨st, a, hps, hfind, h.symm⟩

lemma apptKey_newAppointmentRow (db : DB) (actorUserId : Nat) (req : CreateRequest) :
    apptKey (newAppointmentRow db actorUserId req) =
      (req.therapist_id, req.appointment_date, req.appointment_time) := rfl

lemma violatesUnique_eq_false {db : DB} {tid : Nat} {d : Date} {t : Nat}
    (h : violatesUniqueAppointment db tid d t = false) :
    ∀ a ∈ db.appointments,
      ¬(a.therapist_id = tid ∧ a.appointment_date = d ∧ a.appointment_time = t) := by
  intro a ha
  simp only [violatesUniqueAppointment, List.any_eq_false, decide_eq_true_eq] at h
  exact h a ha

lemma apptKey_updateBranch (st : Status) (notes : Option String) (apptId : Nat)
    (x : Appointment) :
    apptKey (if idMatches apptId x then applyStatusUpdate st notes x else x) = apptKey x := by
  split <;> rfl

lemma reachable_uniqueKeyInv {db : DB} (h : Reachable db) : UniqueKeyInv db := by
  induction h with
  | init db h0 =>
      unfold UniqueKeyInv
      rw [h0]
      exact List.Pairwise.nil
  | create db db' actorUserId req id _ heq ih =>
      obtain ⟨_, _, hv, _, hdb⟩ := createAppointment_ok heq
      subst hdb
      unfold UniqueKeyInv at ih ⊢
      show (db.appointments ++ [newAppointmentRow db actorUserId req]).Pairwise _
      rw [List.pairwise_append]
      refine ⟨ih, List.pairwise_singleton _ _, ?_⟩
      intro a ha b hb
      simp only [List.mem_singleton] at hb
      subst hb
      intro hkeq
      apply violatesUnique_eq_false hv a ha
      rw [apptKey_newAppointmentRow] at hkeq
      simpa [apptKey, Prod.ext_iff] using hkeq
  | update db db' actor apptId ns notes _ heq ih =>
      obtain ⟨st, a, _, _, hdb⟩ := updateAppointmentStatus_ok heq
      subst hdb
      unfold UniqueKeyInv at ih ⊢
      show (db.appointments.map _).Pairwise _
      rw [List.pairwise_map]
      exact ih.imp fun hab => by
        rw [apptKey_updateBranch, apptKey_updateBranch]
        exact hab
  | collab db db' _ happ ih =>
      unfold UniqueKeyInv at ih ⊢
      rw [happ]
      exact ih

lemma uniqueKeyInv_noDoubleBooking {db : DB} (h : UniqueKeyInv db) : NoDoubleBooking db :=
  h.imp fun hab _ _ => hab

end PhysioHome

namespace PhysioHome

/-- Sample admin user, as in the seeded data. -/
def userAdmin : User := { id := 1, role := Role.admin, is_active := true }

/-- Sample active therapist user. -/
def userTherapist : User := { id := 2, role := Role.therapist, is_active := true }

/-- A second sample active therapist user. -/
def userTherapist3 : User := { id := 3, role := Role.therapist, is_active := true }

/-- Sample patient user. -/
def userPatient : User := { id := 6, role := Role.patient, is_active := true }

/-- Profile of therapist user 2, hourly rate 200000. -/
def profileSample : TherapistProfile := { id := 1, user_id := 2, hourly_rate := 200000 }

/-- A Monday window of profile 1, 08:00 to 17:00. -/
def windowMonday : AvailabilityWindow :=
  { therapist_id := 1, day_of_week := 1, start_time := 480, end_time := 1020
  , is_available := true }

/-- A base state with users, one profile and one window and no appointments. -/
def dbBase : DB :=
  { users := [userAdmin, userTherapist, userTherapist3, userPatient]
  , therapists := [profileSample]
  , availability := [windowMonday]
  , appointments := []
  , notifications := []
  , audit_logs := []
  , nextAppointmentId := 1 }

/-- A booking request for therapist 2 on Monday 2024-06-10 at 09:00. -/
def reqSlot : CreateRequest :=
  { therapist_id := 2, appointment_date := ⟨2024, 6, 10⟩, appointment_time := 540
  , service_type := "Ortopedi", notes := none, address := "Jl. Sudirman 1" }

/-- C1: in every reachable state, no two appointments whose status is outside
cancelled/completed share the same (therapist id, date, time) tuple, and both
mutating operations preserve the invariant from any reachable state. -/
theorem c1_no_double_booking_invariant (db : DB) (h : Reachable db) :
    NoDoubleBooking db ∧
    (∀ actorUserId req db' id,
      createAppointment db actorUserId req = Except.ok (db', id) →
      NoDoubleBooking db') ∧
    (∀ actor apptId ns notes db',
      updateAppointmentStatus db actor apptId ns notes = Except.ok db' →
      NoDoubleBooking db') :=
  ⟨uniqueKeyInv_noDoubleBooking (reachable_uniqueKeyInv h),
   fun actorUserId req db' id heq =>
     uniqueKeyInv_noDoubleBooking
       (reachable_uniqueKeyInv (Reachable.create db db' actorUserId req id h heq)),
   fun actor apptId ns notes db' heq =>
     uniqueKeyInv_noDoubleBooking
       (reachable_uniqueKeyInv (Reachable.update db db' actor apptId ns notes h heq))⟩

/-- C1 witness: the invariant holds in the concrete initial state dbBase. -/
theorem c1_witness : NoDoubleBooking dbBase :=
  (c1_no_double_booking_invariant dbBase (Reachable.init dbBase rfl)).1

/-- A cancelled appointment occupying (therapist 2, 2024-06-10, 09:00). -/
def apptCancelledSlot : Appointment :=
  { id := 1, patient_id := 6, therapist_id := 2, appointment_date := ⟨2024, 6, 10⟩
  , appointment_time := 540, service_type := "Ortopedi", status := Status.cancelled
  , duration_minutes := 60, notes := none, patient_address := "Jl. Sudirman 1"
  , total_cost := none }

/-- State in which only the cancelled appointment holds the slot. -/
def dbCancelledOnly : DB :=
  { dbBase with appointments := [apptCancelledSlot], nextAppointmentId := 2 }

/-- C2: at a slot every occupant of which is cancelled, the pre-check reports
no conflict, yet creation does not succeed: the INSERT violates the
unconditional unique_appointment key and the request ends in the 500
catch-all instead. -/
theorem c2_cancelled_slot_still_blocks :
    hasConflict dbCancelledOnly 2 ⟨2024, 6, 10⟩ 540 = false ∧
    violatesUniqueAppointment dbCancelledOnly 2 ⟨2024, 6, 10⟩ 540 = true ∧
    createAppointment dbCancelledOnly 6 reqSlot = Except.error ApiError.internalError :=
  ⟨rfl, rfl, rfl⟩

/-- A completed appointment occupying (therapist 3, 2024-07-01, 10:00). -/
def apptCompletedSlot : Appointment :=
  { id := 1, patient_id := 6, therapist_id := 3, appointment_date := ⟨2024, 7, 1⟩
  , appointment_time := 600, service_type := "Neurologi", status := Status.completed
  , duration_minutes := 60, notes := none, patient_address := "Jl. Thamrin 4"
  , total_cost := none }

/-- State in which only the completed appointment holds the slot. -/
def dbCompletedOnly : DB :=
  { dbBase with appointments := [apptCompletedSlot], nextAppointmentId := 2 }

/-- A booking request for therapist 3 on 2024-07-01 at 10:00. -/
def reqSlot3 : CreateRequest :=
  { therapist_id := 3, appointment_date := ⟨2024, 7, 1⟩, appointment_time := 600
  , service_type := "Neurologi", notes := none, address := "Jl. Thamrin 4" }

/-- C3 counterexample: the pre-check passes, the INSERT fails on the
uniqueness constraint, and the answer is the generic internal error, which
is not the conflict kind of the pre-check path. -/
theorem c3_counterexample :
    hasConflict dbCompletedOnly 3 ⟨2024, 7, 1⟩ 600 = false ∧
    violatesUniqueAppointment dbCompletedOnly 3 ⟨2024, 7, 1⟩ 600 = true ∧
    createAppointment dbCompletedOnly 6 reqSlot3 = Except.error ApiError.internalError ∧
    ApiError.internalError ≠ ApiError.conflict "Time slot already booked" :=
  ⟨rfl, rfl, rfl, by decide⟩

/-- C3 amended: whenever the pre-check passes but the INSERT violates the
unique_appointment constraint, CreateAppointment answers the generic internal
error rather than the conflict kind. -/
theorem c3_amended_race_yields_internal_error (db : DB) (actorUserId : Nat)
    (req : CreateRequest)
    (h1 : therapistUserExists db req.therapist_id = true)
    (h2 : hasConflict db req.therapist_id req.appointment_date
      req.appointment_time = false)
    (h3 : violatesUniqueAppointment db req.therapist_id req.appointment_date
      req.appointment_time = true) :
    createAppointment db actorUserId req = Except.error ApiError.internalError := by
  simp [createAppointment, h1, h2, h3]

/-- C3 witness: the amended statement applied at a concrete state. -/
theorem c3_amended_witness :
    createAppointment dbCancelledOnly 7 reqSlot = Except.error ApiError.internalError :=
  c3_amended_race_yields_internal_error dbCancelledOnly 7 reqSlot rfl rfl rfl

end PhysioHome

namespace PhysioHome

lemma filter_map_comm {α : Type} (p : α → Bool) (g : α → α)
    (hpg : ∀ x, p (g x) = p x) (l : List α) :
    (l.map g).filter p = (l.filter p).map g := by
  induction l with
  | nil => rfl
  | cons b t ih =>
    by_cases hb : p b = true
    · rw [List.map_cons, List.filter_cons_of_pos (by rw [hpg]; exact hb),
        List.filter_cons_of_pos hb, List.map_cons, ih]
    · have hb' : p b = false := by simpa using hb
      rw [List.map_cons, List.filter_cons_of_neg (by simp [hpg, hb']),
        List.filter_cons_of_neg (by simp [hb']), ih]

lemma find?_eq_of_filter_single {α : Type} (p q : α → Bool) :
    ∀ (l : List α) (a : α), l.filter p = [a] → q a = true →
      l.find? (fun x => p x && q x) = some a := by
  intro l
  induction l with
  | nil => intro a h _; simp at h
  | cons b t ih =>
    intro a h hq
    by_cases hb : p b = true
    · rw [List.filter_cons_of_pos hb] at h
      simp only [List.cons.injEq] at h
      obtain ⟨hba, _⟩ := h
      subst hba
      exact List.find?_cons_of_pos _ (by rw [hb, hq]; rfl)
    · have hb' : p b = false := by simpa using hb
      rw [List.filter_cons_of_neg (by simp [hb'])] at h
      rw [List.find?_cons_of_neg _ (by simp [hb'])]
      exact ih a h hq

lemma updateAppointmentStatus_eq_ok {db : DB} {actor : Actor} {apptId : Nat}
    {ns : String} {notes : Option String} {st : Status} {a : Appointment}
    (hp : parseStatus ns = some st)
    (hfind : db.appointments.find? (fun x => idMatches apptId x && canTouch actor x)
      = some a) :
    updateAppointmentStatus db actor apptId ns notes =
      Except.ok (statusUpdateResult db apptId st notes) := by
  unfold updateAppointmentStatus
  rw [hp, hfind]

lemma idMatches_updateBranch (st : Status) (notes : Option String) (apptId : Nat)
    (x : Appointment) :
    idMatches apptId (if idMatches apptId x then applyStatusUpdate st notes x else x)
      = idMatches apptId x := by
  split <;> rfl

lemma filter_of_single_appointment {db : DB} {apptId : Nat} {a : Appointment}
    (st : Status) (notes : Option String)
    (hf : db.appointments.filter (idMatches apptId) = [a]) :
    (statusUpdateResult db apptId st notes).appointments.filter (idMatches apptId)
      = [applyStatusUpdate st notes a] := by
  have hpa : idMatches apptId a = true :=
    List.of_mem_filter (a := a) (by rw [hf]; exact List.mem_singleton_self a)
  show ((db.appointments.map _).filter _) = _
  rw [filter_map_comm (idMatches apptId) _ (idMatches_updateBranch st notes apptId), hf]
  simp [hpa]

end PhysioHome

namespace PhysioHome

/-- A scheduled appointment of patient 6 with therapist 2. -/
def apptScheduled : Appointment :=
  { id := 1, patient_id := 6, therapist_id := 2, appointment_date := ⟨2024, 6, 10⟩
  , appointment_time := 540, service_type := "Ortopedi", status := Status.scheduled
  , duration_minutes := 60, notes := none, patient_address := "Jl. Sudirman 1"
  , total_cost := none }

/-- State holding the scheduled appointment. -/
def dbScheduled : DB :=
  { dbBase with appointments := [apptScheduled], nextAppointmentId := 2 }

/-- State after the admin (user 1) completes appointment 1 in dbScheduled. -/
def dbAfterAdminComplete : DB :=
  match updateAppointmentStatus dbScheduled ⟨1, Role.admin⟩ 1 "completed" none with
  | Except.ok d => d
  | Except.error _ => dbScheduled

/-- C7 counterexample: the admin user 1 performs the status change, yet the
single audit row records user 6 — the patient on the appointment — as its
user id, not the actor who performed the change. -/
theorem c7_counterexample :
    updateAppointmentStatus dbScheduled ⟨1, Role.admin⟩ 1 "completed" none =
      Except.ok dbAfterAdminComplete ∧
    dbAfterAdminComplete.audit_logs =
      [ { user_id := 6, action := "status_change", table_name := "appointments"
        , record_id := 1, old_status := Status.scheduled
        , new_status := Status.completed } ] ∧
    (6 : Nat) ≠ 1 :=
  ⟨rfl, rfl, by decide⟩

/-- C7 amended: a status update on a single stored row appends exactly one
audit row — recording the old status, the new status and the patient id of
the appointment (not the actor) — when the status changes, and none when the
new status equals the old one. -/
theorem c7_amended_audit_on_change (db : DB) (actor : Actor) (apptId : Nat)
    (ns : String) (notes : Option String) (st : Status) (a : Appointment)
    (hp : parseStatus ns = some st)
    (hf : db.appointments.filter (idMatches apptId) = [a])
    (hauth : canTouch actor a = true) :
    updateAppointmentStatus db actor apptId ns notes =
      Except.ok (statusUpdateResult db apptId st notes) ∧
    (a.status ≠ st →
      (statusUpdateResult db apptId st notes).audit_logs = db.audit_logs ++
        [ { user_id := a.patient_id, action := "status_change"
          , table_name := "appointments", record_id := a.id
          , old_status := a.status, new_status := st } ]) ∧
    (a.status = st →
      (statusUpdateResult db apptId st notes).audit_logs = db.audit_logs) := by
  have hfind := find?_eq_of_filter_single (idMatches apptId) (canTouch actor)
    db.appointments a hf hauth
  refine ⟨updateAppointmentStatus_eq_ok hp hfind, ?_, ?_⟩
  · intro hne
    show db.audit_logs ++ (db.appointments.filter (idMatches apptId)).flatMap _ = _
    rw [hf]
    simp [log_appointment_changes, applyStatusUpdate, hne]
  · intro heq
    show db.audit_logs ++ (db.appointments.filter (idMatches apptId)).flatMap _ = _
    rw [hf]
    simp [log_appointment_changes, applyStatusUpdate, heq]

/-- C7 witness: a no-op status update (scheduled to scheduled) by the patient
produces no audit row. -/
theorem c7_amended_witness :
    updateAppointmentStatus dbScheduled ⟨6, Role.patient⟩ 1 "scheduled" none =
      Except.ok (statusUpdateResult dbScheduled 1 Status.scheduled none) ∧
    (statusUpdateResult dbScheduled 1 Status.scheduled none).audit_logs =
      dbScheduled.audit_logs :=
  ⟨(c7_amended_audit_on_change dbScheduled ⟨6, Role.patient⟩ 1 "scheduled" none
      Status.scheduled apptScheduled rfl rfl rfl).1,
   (c7_amended_audit_on_change dbScheduled ⟨6, Role.patient⟩ 1 "scheduled" none
      Status.scheduled apptScheduled rfl rfl rfl).2.2 rfl⟩

end PhysioHome

namespace PhysioHome

/-- C8: the status validator rejects any status outside the five recognized
values before any storage access (the answer is the same for every state);
an actor who is neither the patient nor the therapist on the row and not an
admin only ever receives an error; and a successful update implies the actor
stood in one of the three permitted relations to the appointment. -/
theorem c8_status_update_authorization (db : DB) (actor : Actor) (apptId : Nat)
    (ns : String) (notes : Option String) :
    (parseStatus ns = none →
      ∀ dbAny : DB, updateAppointmentStatus dbAny actor apptId ns notes =
        Except.error ApiError.validationError) ∧
    ((∀ a ∈ db.appointments, a.id = apptId →
        ¬(a.patient_id = actor.userId ∨ a.therapist_id = actor.userId
          ∨ actor.role = Role.admin)) →
      updateAppointmentStatus db actor apptId ns notes =
          Except.error ApiError.validationError ∨
      updateAppointmentStatus db actor apptId ns notes =
          Except.error (ApiError.notFound "Appointment not found")) ∧
    (∀ db', updateAppointmentStatus db actor apptId ns notes = Except.ok db' →
      ∃ a ∈ db.appointments, a.id = apptId ∧
        (a.patient_id = actor.userId ∨ a.therapist_id = actor.userId
          ∨ actor.role = Role.admin)) := by
  refine ⟨?_, ?_, ?_⟩
  · intro hp dbAny
    unfold updateAppointmentStatus
    rw [hp]
  · intro hno
    cases hps : parseStatus ns with
    | none =>
        left
        unfold updateAppointmentStatus
        rw [hps]
    | some st =>
        right
        have hfind : db.appointments.find?
            (fun x => idMatches apptId x && canTouch actor x) = none := by
          rw [List.find?_eq_none]
          intro x hx
          simp only [Bool.and_eq_true, idMatches, canTouch, decide_eq_true_eq, not_and]
          intro hid
          exact hno x hx hid
        unfold updateAppointmentStatus
        rw [hps, hfind]
  · intro db' h
    obtain ⟨st, a, _, hfind, _⟩ := updateAppointmentStatus_ok h
    have hmem : a ∈ db.appointments := List.mem_of_find?_eq_some hfind
    have hpred := List.find?_some hfind
    simp only [Bool.and_eq_true, idMatches, canTouch, decide_eq_true_eq] at hpred
    exact ⟨a, hmem, hpred.1, hpred.2⟩

/-- C8 witness: the validator rejects the unrecognized status no_show on the
concrete state, and an unrelated patient (user 7) cannot touch appointment 1. -/
theorem c8_witness :
    updateAppointmentStatus dbScheduled ⟨1, Role.admin⟩ 1 "no_show" none =
      Except.error ApiError.validationError ∧
    (updateAppointmentStatus dbScheduled ⟨7, Role.patient⟩ 1 "completed" none =
        Except.error ApiError.validationError ∨
      updateAppointmentStatus dbScheduled ⟨7, Role.patient⟩ 1 "completed" none =
        Except.error (ApiError.notFound "Appointment not found")) :=
  ⟨(c8_status_update_authorization dbScheduled ⟨1, Role.admin⟩ 1 "no_show" none).1
      rfl dbScheduled,
   (c8_status_update_authorization dbScheduled ⟨7, Role.patient⟩ 1 "completed" none).2.1
      (by decide)⟩

/-- An appointment already in the terminal status completed. -/
def apptTerminal : Appointment :=
  { id := 1, patient_id := 6, therapist_id := 2, appointment_date := ⟨2024, 6, 10⟩
  , appointment_time := 540, service_type := "Ortopedi", status := Status.completed
  , duration_minutes := 60, notes := none, patient_address := "Jl. Sudirman 1"
  , total_cost := none }

/-- State holding only the completed (terminal) appointment. -/
def dbTerminal : DB :=
  { dbBase with appointments := [apptTerminal], nextAppointmentId := 2 }

/-- State after the admin re-opens the completed appointment. -/
def dbReopened : DB :=
  match updateAppointmentStatus dbTerminal ⟨1, Role.admin⟩ 1 "scheduled" none with
  | Except.ok d => d
  | Except.error _ => dbTerminal

/-- C9 counterexample: an appointment in the terminal status completed is
moved back to scheduled by an authorized update — the transition out of the
terminal state is applied to storage. -/
theorem c9_counterexample :
    dbTerminal.appointments.map Appointment.status = [Status.completed] ∧
    updateAppointmentStatus dbTerminal ⟨1, Role.admin⟩ 1 "scheduled" none =
      Except.ok dbReopened ∧
    dbReopened.appointments.map Appointment.status = [Status.scheduled] :=
  ⟨rfl, rfl, rfl⟩

/-- C9 amended: no transition-legality restriction exists: for an appointment
stored in any status — the terminal ones included — any actor in one of the
three permitted relations may set any of the five recognized statuses, and
the stored status becomes exactly the requested one. -/
theorem c9_amended_no_terminal_states (db : DB) (actor : Actor) (apptId : Nat)
    (ns : String) (notes : Option String) (st : Status) (a : Appointment)
    (hp : parseStatus ns = some st)
    (hf : db.appointments.filter (idMatches apptId) = [a])
    (hauth : canTouch actor a = true) :
    updateAppointmentStatus db actor apptId ns notes =
      Except.ok (statusUpdateResult db apptId st notes) ∧
    (statusUpdateResult db apptId st notes).appointments.filter (idMatches apptId)
      = [applyStatusUpdate st notes a] ∧
    (applyStatusUpdate st notes a).status = st :=
  ⟨updateAppointmentStatus_eq_ok hp
      (find?_eq_of_filter_single (idMatches apptId) (canTouch actor)
        db.appointments a hf hauth),
   filter_of_single_appointment st notes hf, rfl⟩

/-- C9 witness: the amended statement applied to the concrete terminal state:
the patient moves the completed appointment back to in_progress. -/
theorem c9_amended_witness :
    updateAppointmentStatus dbTerminal ⟨6, Role.patient⟩ 1 "in_progress" none =
      Except.ok (statusUpdateResult dbTerminal 1 Status.in_progress none) ∧
    (statusUpdateResult dbTerminal 1 Status.in_progress none).appointments.filter
        (idMatches 1) = [applyStatusUpdate Status.in_progress none apptTerminal] ∧
    (applyStatusUpdate Status.in_progress none apptTerminal).status =
      Status.in_progress :=
  c9_amended_no_terminal_states dbTerminal ⟨6, Role.patient⟩ 1 "in_progress" none
    Status.in_progress apptTerminal rfl rfl rfl

end PhysioHome

namespace PhysioHome

/-- C5: a row inserted with NULL total cost is stored with hourly rate times
(duration minutes / 60), an explicitly supplied cost is stored unchanged, the
two documented examples at rate 200000 hold, and the status-update operation
— the only later mutation of appointments — never recomputes any cost. -/
theorem c5_cost_computed_once_at_insert :
    (∀ db row rate, row.total_cost = none →
      lookupHourlyRate db row.therapist_id = some rate →
      (applyCostTrigger db row).total_cost =
        some (rate * ((row.duration_minutes : ℚ) / 60))) ∧
    (∀ db row c, row.total_cost = some c →
      (applyCostTrigger db row).total_cost = some c) ∧
    calculate_appointment_cost none (some 200000) 60 = some 200000 ∧
    calculate_appointment_cost none (some 200000) 45 = some 150000 ∧
    (∀ db actor apptId ns notes db',
      updateAppointmentStatus db actor apptId ns notes = Except.ok db' →
      db'.appointments.map Appointment.total_cost =
        db.appointments.map Appointment.total_cost) := by
  refine ⟨?_, ?_, ?_, ?_, ?_⟩
  · intro db row rate h0 hr
    simp [applyCostTrigger, calculate_appointment_cost, h0, hr]
  · intro db row c h0
    simp [applyCostTrigger, calculate_appointment_cost, h0]
  · show some ((200000 : ℚ) * ((60 : ℚ) / 60)) = some 200000
    norm_num
  · show some ((200000 : ℚ) * ((45 : ℚ) / 60)) = some 150000
    norm_num
  · intro db actor apptId ns notes db' h
    obtain ⟨st, a, _, _, hdb⟩ := updateAppointmentStatus_ok h
    subst hdb
    show (db.appointments.map _).map _ = _
    rw [List.map_map]
    apply List.map_congr_left
    intro x _
    simp only [Function.comp_apply]
    split <;> rfl

/-- A pending row for therapist 2 with duration 45 and NULL cost. -/
def rowDur45 : Appointment :=
  { id := 5, patient_id := 6, therapist_id := 2, appointment_date := ⟨2024, 6, 11⟩
  , appointment_time := 600, service_type := "Ortopedi", status := Status.scheduled
  , duration_minutes := 45, notes := none, patient_address := "Jl. Sudirman 1"
  , total_cost := none }

/-- C5 witness: the trigger fills the 45-minute row of the rate-200000
therapist with 200000 * (45 / 60). -/
theorem c5_witness :
    (applyCostTrigger dbBase rowDur45).total_cost =
      some ((200000 : ℚ) * ((45 : ℚ) / 60)) :=
  c5_cost_computed_once_at_insert.1 dbBase rowDur45 200000 rfl rfl

/-- C6: a successful creation appends exactly one appointment row — with
status scheduled and the returned id — and exactly two notifications: the
new-appointment one to the therapist and the confirmation one to the patient
on the row, each carrying the formatted date and time and the new id. -/
theorem c6_create_row_and_two_notifications (db : DB) (actorUserId : Nat)
    (req : CreateRequest) (db' : DB) (id : Nat)
    (h : createAppointment db actorUserId req = Except.ok (db', id)) :
    db'.appointments = db.appointments ++ [newAppointmentRow db actorUserId req] ∧
    (newAppointmentRow db actorUserId req).status = Status.scheduled ∧
    (newAppointmentRow db actorUserId req).id = id ∧
    db'.notifications = db.notifications ++
      [ { user_id := (newAppointmentRow db actorUserId req).therapist_id
        , title := "Appointment Baru"
        , message := "Anda memiliki appointment baru pada "
            ++ formatDateDMY req.appointment_date ++ " jam "
            ++ formatTimeHM req.appointment_time
        , type := "appointment", related_id := some id
        , related_type := some "appointment", is_read := false }
      , { user_id := (newAppointmentRow db actorUserId req).patient_id
        , title := "Appointment Terkonfirmasi"
        , message := "Appointment Anda telah terjadwal pada "
            ++ formatDateDMY req.appointment_date ++ " jam "
            ++ formatTimeHM req.appointment_time
        , type := "appointment", related_id := some id
        , related_type := some "appointment", is_read := false } ] := by
  obtain ⟨_, _, _, hid, hdb⟩ := createAppointment_ok h
  subst hdb
  subst hid
  exact ⟨rfl, rfl, rfl, rfl⟩

/-- State after patient 6 books therapist 2 in the empty base state. -/
def dbAfterCreate : DB :=
  match createAppointment dbBase 6 reqSlot with
  | Except.ok p => p.1
  | Except.error _ => dbBase

/-- C6 witness: the creation hypothesis holds concretely in dbBase and the
inserted row carries status scheduled. -/
theorem c6_witness :
    (newAppointmentRow dbBase 6 reqSlot).status = Status.scheduled :=
  (c6_create_row_and_two_notifications dbBase 6 reqSlot dbAfterCreate 1 rfl).2.1

/-- C10: a successful creation stores the authenticated actor as the patient
of the new appointment; the request carries no patient id field, so every
role books itself as the patient. -/
theorem c10_patient_is_the_actor (db : DB) (actorUserId : Nat)
    (req : CreateRequest) (db' : DB) (id : Nat)
    (h : createAppointment db actorUserId req = Except.ok (db', id)) :
    db'.appointments = db.appointments ++ [newAppointmentRow db actorUserId req] ∧
    (newAppointmentRow db actorUserId req).patient_id = actorUserId := by
  obtain ⟨_, _, _, _, hdb⟩ := createAppointment_ok h
  subst hdb
  exact ⟨rfl, rfl⟩

/-- State after therapist user 3 books therapist 2 in the base state. -/
def dbSelfBooked : DB :=
  match createAppointment dbBase 3 reqSlot with
  | Except.ok p => p.1
  | Except.error _ => dbBase

/-- C10 witness: even a therapist-roled actor (user 3) becomes the patient on
the appointment they create. -/
theorem c10_witness :
    (newAppointmentRow dbBase 3 reqSlot).patient_id = 3 :=
  (c10_patient_is_the_actor dbBase 3 reqSlot dbSelfBooked 1 rfl).2

end PhysioHome

namespace PhysioHome

lemma mem_blockedTimes {db : DB} {tid : Nat} {d : Date} {t : Nat} :
    t ∈ blockedTimes db tid d ↔
      ∃ a ∈ db.appointments, a.therapist_id = tid ∧ a.appointment_date = d ∧
        a.status ≠ Status.cancelled ∧ a.status ≠ Status.completed ∧
        a.appointment_time = t := by
  simp only [blockedTimes, List.mem_map, List.mem_filter, Bool.and_eq_true,
    decide_eq_true_eq, Status.blocks_iff]
  constructor
  · rintro ⟨a, ⟨ha, ⟨h1, h2⟩, h3, h4⟩, h5⟩
    exact ⟨a, ha, h1, h2, h3, h4, h5⟩
  · rintro ⟨a, ha, h1, h2, h3, h4, h5⟩
    exact ⟨a, ⟨ha, ⟨h1, h2⟩, h3, h4⟩, h5⟩

/-- C4: a time is an available slot exactly when it is the start time of an
active weekly window of the therapist's profile for the canonical
0=Sunday..6=Saturday day-of-week index of the date, and no appointment of the
therapist on that date with status outside cancelled/completed sits at that
time; the output is ordered ascending; and when no window matches the output
is the empty list (the computation is a pure function and never errs). -/
theorem c4_available_slots_characterization (db : DB) (tid : Nat) (d : Date) :
    (∀ t : Nat, t ∈ getAvailableTimeSlots db tid d ↔
      ∃ w ∈ db.availability,
        some w.therapist_id =
          (db.therapists.find? fun p => decide (p.user_id = tid)).map
            TherapistProfile.id ∧
        w.day_of_week = (totalDaysFromCivil d + 3) % 7 ∧
        w.is_available = true ∧
        w.start_time = t ∧
        ¬∃ a ∈ db.appointments, a.therapist_id = tid ∧ a.appointment_date = d ∧
          a.status ≠ Status.cancelled ∧ a.status ≠ Status.completed ∧
          a.appointment_time = t) ∧
    List.Sorted (· ≤ ·) (getAvailableTimeSlots db tid d) ∧
    ((∀ w ∈ db.availability,
        ¬(some w.therapist_id =
            (db.therapists.find? fun p => decide (p.user_id = tid)).map
              TherapistProfile.id ∧
          w.day_of_week = (totalDaysFromCivil d + 3) % 7 ∧ w.is_available = true)) →
      getAvailableTimeSlots db tid d = []) := by
  refine ⟨?_, ?_, ?_⟩
  · intro t
    rw [getAvailableTimeSlots, List.Perm.mem_iff (List.perm_insertionSort _ _)]
    simp only [List.mem_map, List.mem_filter, Bool.and_eq_true, decide_eq_true_eq,
      Bool.not_eq_true', decide_eq_false_iff_not, mem_blockedTimes, mysqlDayOfWeek,
      Nat.add_sub_cancel]
    constructor
    · rintro ⟨w, ⟨hw, ⟨hprof, hdow, hact⟩, hnb⟩, hst⟩
      subst hst
      exact ⟨w, hw, hprof, hdow, hact, rfl, hnb⟩
    · rintro ⟨w, hw, hprof, hdow, hact, hst, hnb⟩
      subst hst
      exact ⟨w, ⟨hw, ⟨hprof, hdow, hact⟩, hnb⟩, rfl⟩
  · rw [getAvailableTimeSlots]
    exact List.sorted_insertionSort _ _
  · intro hno
    rw [getAvailableTimeSlots]
    have hfil : (db.availability.filter fun w =>
        decide (some w.therapist_id =
          ((db.therapists.find? fun p => decide (p.user_id = tid)).map
            TherapistProfile.id) ∧
          w.day_of_week = mysqlDayOfWeek d - 1 ∧ w.is_available = true)
        && !(decide (w.start_time ∈ blockedTimes db tid d))) = [] := by
      rw [List.filter_eq_nil_iff]
      intro w hw
      simp only [Bool.and_eq_true, decide_eq_true_eq, not_and, mysqlDayOfWeek,
        Nat.add_sub_cancel]
      intro hsel
      exact absurd hsel (hno w hw)
    rw [hfil]
    rfl

/-- C4 witness: a therapist user with no profile (id 99) matches no window,
so the slot list of the concrete state is empty. -/
theorem c4_witness : getAvailableTimeSlots dbBase 99 ⟨2024, 6, 10⟩ = [] :=
  (c4_available_slots_characterization dbBase 99 ⟨2024, 6, 10⟩).2.2 (by decide)

end PhysioHome
